import Mathlib

/-
Verification of the traversal/extraction engine of `scrapper.py`.

The embedding models the `WebScraper` class methods as pure functions.  The
browser driver is modelled by a `render` function mapping a URL (a `String`)
to `Option Document`: `none` means `driver.get` raises, and a `Document`
carries everything the code later reads from the driver (title, current URL,
body text, the `img` elements), together with flags that record whether a
given read raises an exception.  The mutable run state (`scraped_pages`,
`visited_urls`) is threaded explicitly, extended with a ghost trace of every
`driver.get` invocation so that claims about renderer invocations can be
stated.
-/

namespace WebScraper

/-- A page record as built by `extract_page_details`: title, current URL and
body text of the rendered page. -/
structure PageRecord where
  title : String
  url : String
  page_content : String
deriving DecidableEq

/-- Model of an `img` element: the value of its `src` attribute, the value of
the `href` attribute of its parent element (both `none` when the attribute is
missing, which Python reports as `None`), and flags recording whether reading
each of them raises an exception (e.g. a stale element handle). -/
structure ImgElement where
  src : Option String
  srcFails : Bool
  parentHref : Option String
  parentFails : Bool
deriving DecidableEq

/-- Model of a rendered document, as exposed to the code through the driver.
The field `url` is the driver `current_url` value after loading (it may differ
from the requested URL, e.g. after a redirect); `findImgsFails` models
`find_elements` raising, and `detailsFail` models a failure while reading
title, current URL or body text in `extract_page_details`. -/
structure Document where
  title : String
  url : String
  content : String
  imgs : List ImgElement
  findImgsFails : Bool
  detailsFail : Bool
deriving DecidableEq

/-- Python truthiness of a string-or-None value (`None` and `""` are falsy). -/
def truthy : Option String → Bool
  | none => false
  | some s => !(s == "")

/-- Python `s.startswith(p)` on code points: `chListPre p.data s.data`. -/
def chListPre : List Char → List Char → Bool
  | [], _ => true
  | _ :: _, [] => false
  | p :: ps, c :: cs => p == c && chListPre ps cs

/-- Python `s.startswith(p)`. -/
def startswith (s p : String) : Bool := chListPre p.data s.data

/-- One element of the comprehension in `extract_image_links`:
the attribute read of `src` on the element, with the `href` attribute of the
parent element as fallback.  Python evaluates the
left operand first; if it is truthy its value is the result, otherwise the
right operand is evaluated.  An exception while reading is `Except.error`. -/
def imgLink (img : ImgElement) : Except Unit (Option String) :=
  if img.srcFails then Except.error ()
  else if truthy img.src then Except.ok img.src
  else if img.parentFails then Except.error ()
  else Except.ok img.parentHref

/-- The list comprehension of `extract_image_links`: elements are read left to
right and the first exception aborts the whole comprehension. -/
def collectLinks : List ImgElement → Except Unit (List (Option String))
  | [] => Except.ok []
  | img :: rest =>
    match imgLink img with
    | Except.error e => Except.error e
    | Except.ok link =>
      match collectLinks rest with
      | Except.error e => Except.error e
      | Except.ok links => Except.ok (link :: links)

/-- The filter comprehension keeping each link that is truthy and that starts
with the literal characters http, applied to one comprehension value. -/
def keepLink : Option String → Option String
  | none => none
  | some s => if truthy (some s) && startswith s ("http") then some s else none

/-- Method `extract_image_links`: the whole body is wrapped in `try/except`
returning `[]` on any exception — including one raised while reading a single
element of the comprehension, and including `find_elements` itself raising. -/
def extract_image_links (doc : Document) : List String :=
  if doc.findImgsFails then []
  else
    match collectLinks doc.imgs with
    | Except.error _ => []
    | Except.ok image_links => image_links.filterMap keepLink

/-- Method `extract_page_details`: reads title, current URL and body text from
the driver; it has no `try/except`, so a failure (modelled by `detailsFail`)
propagates to the caller. -/
def extract_page_details (doc : Document) : Except Unit PageRecord :=
  if doc.detailsFail then Except.error ()
  else Except.ok { title := doc.title, url := doc.url, page_content := doc.content }

/-- Mutable state of one `navigate_and_extract` run: the `scraped_pages` list
and the `visited_urls` set (a list used as a set), plus a ghost trace of every
`driver.get` invocation in order. -/
structure St where
  scraped : List PageRecord
  visited : List String
  renders : List String
deriving DecidableEq

/-- The straight-line part of the `try` block of `recursive_scrape` for one
URL: `driver.get` (traced in `renders`), the settle delay, then
`extract_page_details`, append to `scraped_pages`, insert into `visited_urls`,
and `extract_image_links`.  It returns the updated state together with
`some links` when everything up to `extract_image_links` succeeded (so that
the `for` loop over the links runs) and `none` when `driver.get` or
`extract_page_details` raised (the exception is caught by the surrounding
`try/except`, and the loop over children never runs). -/
def visitState (render : String → Option Document) (current_url : String) (s : St) :
    St × Option (List String) :=
  let sR : St := { s with renders := s.renders ++ [current_url] }
  match render current_url with
  | none => (sR, none)
  | some doc =>
    match extract_page_details doc with
    | Except.error _ => (sR, none)
    | Except.ok page_details =>
      ({ sR with scraped := sR.scraped ++ [page_details],
                 visited := current_url :: sR.visited },
        some (extract_image_links doc))

/-- Body of `recursive_scrape`, generalised to a list of pending URLs at the
same depth.  Processing `current_url :: rest` first runs the body of
`recursive_scrape(current_url, current_depth)` — the guard check, then
`visitState`, then (on success) the `for` loop over the extracted links at
`current_depth + 1` (the first recursive call) — and then runs the remaining
iterations `rest` of the enclosing loop on the resulting state. -/
def scrapeList (render : String → Option Document) (max_depth : Int) :
    List String → Nat → St → St
  | [], _, s => s
  | current_url :: rest, current_depth, s =>
    let s1 :=
      if h : (current_depth : Int) > max_depth ∨ current_url ∈ s.visited then s
      else
        match visitState render current_url s with
        | (s2, none) => s2
        | (s2, some links) => scrapeList render max_depth links (current_depth + 1) s2
    scrapeList render max_depth rest current_depth s1
termination_by urls current_depth s => ((max_depth + 1 - (current_depth : Int)).toNat, urls.length)

/-- Call `recursive_scrape(current_url, current_depth)` on a given run state. -/
def recursive_scrape (render : String → Option Document) (max_depth : Int)
    (current_url : String) (current_depth : Nat) (s : St) : St :=
  scrapeList render max_depth [current_url] current_depth s

/-- Method `navigate_and_extract(url, max_depth)`: fresh `scraped_pages` and
`visited_urls`, then `recursive_scrape(url, 0)`; the `scraped` field of the returned state is the returned `scraped_pages` list. -/
def navigate_and_extract (render : String → Option Document) (url : String)
    (max_depth : Int) : St :=
  recursive_scrape render max_depth url 0 { scraped := [], visited := [], renders := [] }

/-- One block written by `save_scraped_data` for the page with 1-based index
`index`: the four `f.write` calls of one loop iteration.  The Python slice of `page_content` up to index 1000 takes the
first 1000 code points. -/
def pageBlock (index : Nat) (page : PageRecord) : String :=
  ("Page ") ++ toString index ++ (":\n") ++
  ("Title: ") ++ page.title ++ ("\n") ++
  ("URL: ") ++ page.url ++ ("\n") ++
  ("Content: ") ++ String.mk (page.page_content.data.take 1000) ++ ("...\n\n")

/-- The loop `for index, page in enumerate(scraped_data, 1)` of
`save_scraped_data`, starting at a given index. -/
def writeBlocks (index : Nat) : List PageRecord → String
  | [] => ""
  | page :: rest => pageBlock index page ++ writeBlocks (index + 1) rest

/-- Method `save_scraped_data`: the full text written to the output file. -/
def save_scraped_data (scraped_data : List PageRecord) : String :=
  writeBlocks 1 scraped_data

/-- An `img` element whose `src` attribute is present and readable. -/
def mkImg (s : String) : ImgElement :=
  { src := some s, srcFails := false, parentHref := none, parentFails := false }

/-- An `img` element for which reading the `src` attribute raises
(e.g. a stale element handle). -/
def imgBad : ImgElement :=
  { src := none, srcFails := true, parentHref := none, parentFails := false }

/-- Modelled from the spec (Extractor contract): a candidate must be "an
absolute, fully-qualified reference (has a recognized network scheme)"; the
recognized network schemes for a web crawl are `http://` and `https://`. -/
def specAbsoluteRef (s : String) : Bool :=
  startswith s ("http://") || startswith s ("https://")

/-- Document for page A whose candidate list mentions page B twice. -/
def docA1 : Document :=
  { title := ("A"), url := ("http://a"), content := ("ca"),
    imgs := [mkImg ("http://b"), mkImg ("http://b")],
    findImgsFails := false, detailsFail := false }

/-- Document for page B that renders but whose detail extraction raises. -/
def docB1 : Document :=
  { title := ("B"), url := ("http://b"), content := ("cb"),
    imgs := [], findImgsFails := false, detailsFail := true }

/-- Renderer where A links B twice and the detail extraction of B fails. -/
def render1 (l : String) : Option Document :=
  if l = ("http://a") then some docA1
  else if l = ("http://b") then some docB1
  else none

/-- Document for page A that redirects: its reported location is `http://x`. -/
def docA2 : Document :=
  { title := ("A"), url := ("http://x"), content := ("ca"),
    imgs := [mkImg ("http://b")], findImgsFails := false, detailsFail := false }

/-- Document for page B that also reports location `http://x`. -/
def docB2 : Document :=
  { title := ("B"), url := ("http://x"), content := ("cb"),
    imgs := [], findImgsFails := false, detailsFail := false }

/-- Renderer where two distinct requested URLs report the same final URL. -/
def render2 (l : String) : Option Document :=
  if l = ("http://a") then some docA2
  else if l = ("http://b") then some docB2
  else none

/-- Document for page A of the two-cycle A → B → A. -/
def docACyc : Document :=
  { title := ("A"), url := ("http://a"), content := ("ca"),
    imgs := [mkImg ("http://b")], findImgsFails := false, detailsFail := false }

/-- Document for page B of the two-cycle A → B → A. -/
def docBCyc : Document :=
  { title := ("B"), url := ("http://b"), content := ("cb"),
    imgs := [mkImg ("http://a")], findImgsFails := false, detailsFail := false }

/-- Renderer realising the two-cycle A references B, B references A. -/
def renderCyc (l : String) : Option Document :=
  if l = ("http://a") then some docACyc
  else if l = ("http://b") then some docBCyc
  else none

/-- Document with a readable element, then an element whose read raises,
then another readable element. -/
def docBroken : Document :=
  { title := ("P"), url := ("http://p"), content := ("cp"),
    imgs := [mkImg ("http://ok1"), imgBad, mkImg ("http://ok2")],
    findImgsFails := false, detailsFail := false }

/-- The same document without the failing element. -/
def docAllOk : Document :=
  { title := ("P"), url := ("http://p"), content := ("cp"),
    imgs := [mkImg ("http://ok1"), mkImg ("http://ok2")],
    findImgsFails := false, detailsFail := false }

/-- Seed document for the depth-bound scenario: links pages C1 and C2. -/
def docS5 : Document :=
  { title := ("S"), url := ("http://s"), content := ("cs"),
    imgs := [mkImg ("http://c1"), mkImg ("http://c2")],
    findImgsFails := false, detailsFail := false }

/-- First direct candidate of the seed; itself links page D. -/
def docC5a : Document :=
  { title := ("C1"), url := ("http://c1"), content := ("cc1"),
    imgs := [mkImg ("http://d")], findImgsFails := false, detailsFail := false }

/-- Second direct candidate of the seed; a leaf page. -/
def docC5b : Document :=
  { title := ("C2"), url := ("http://c2"), content := ("cc2"),
    imgs := [], findImgsFails := false, detailsFail := false }

/-- Grand-child page D, renderable but beyond depth 1. -/
def docD5 : Document :=
  { title := ("D"), url := ("http://d"), content := ("cd"),
    imgs := [], findImgsFails := false, detailsFail := false }

/-- Renderer for the depth-bound scenario S → {C1, C2}, C1 → D. -/
def render5 (l : String) : Option Document :=
  if l = ("http://s") then some docS5
  else if l = ("http://c1") then some docC5a
  else if l = ("http://c2") then some docC5b
  else if l = ("http://d") then some docD5
  else none

/-- Seed document for the sibling-failure scenario: A links B and C. -/
def docA6 : Document :=
  { title := ("A"), url := ("http://a"), content := ("contentA"),
    imgs := [mkImg ("http://b"), mkImg ("http://c")],
    findImgsFails := false, detailsFail := false }

/-- Leaf document for sibling C, which renders successfully. -/
def docC6 : Document :=
  { title := ("C"), url := ("http://c"), content := ("contentC"),
    imgs := [], findImgsFails := false, detailsFail := false }

/-- Renderer where A succeeds, B fails to render and C succeeds. -/
def render6 (l : String) : Option Document :=
  if l = ("http://a") then some docA6
  else if l = ("http://c") then some docC6
  else none

/-- Document exposing a scheme-less reference that begins with the letters
`http`. -/
def docSchemeless : Document :=
  { title := ("F"), url := ("http://f"), content := ("cf"),
    imgs := [mkImg ("httpfoo")], findImgsFails := false, detailsFail := false }

/-- Document with a mix of absolute and relative references. -/
def docMix : Document :=
  { title := ("M"), url := ("http://m"), content := ("cm"),
    imgs := [mkImg ("https://example.com/x"), mkImg ("/x"), mkImg ("images/y.png")],
    findImgsFails := false, detailsFail := false }

/-- A record whose content is 1500 characters long. -/
def recLong : PageRecord :=
  { title := ("T"), url := ("U"), page_content := String.mk (List.replicate 1500 'a') }

/-- An empty pending list leaves the state unchanged. -/
theorem scrapeList_nil (render : String → Option Document) (max_depth : Int)
    (d : Nat) (s : St) : scrapeList render max_depth [] d s = s := by
  simp [scrapeList]

/-- Once the current depth exceeds `max_depth`, the traversal is a no-op:
no node is expanded, and no state change of any kind is made. -/
theorem scrapeList_depth_exceeded (render : String → Option Document) (max_depth : Int)
    (urls : List String) (d : Nat) (s : St) (h : (d : Int) > max_depth) :
    scrapeList render max_depth urls d s = s := by
  induction urls generalizing s with
  | nil => simp [scrapeList]
  | cons u rest ih =>
    rw [scrapeList, dif_pos (Or.inl h)]
    exact ih s

/-- When `driver.get` raises, the step only records the render attempt. -/
theorem visitState_eq_fail (render : String → Option Document) (u : String) (s : St)
    (hr : render u = none) :
    visitState render u s = ({ s with renders := s.renders ++ [u] }, none) := by
  simp [visitState, hr]

/-- When the page renders but `extract_page_details` raises, the step only
records the render attempt: nothing is scraped and nothing is marked visited. -/
theorem visitState_eq_detailsFail (render : String → Option Document) (u : String) (s : St)
    (doc : Document) (hr : render u = some doc) (hf : doc.detailsFail = true) :
    visitState render u s = ({ s with renders := s.renders ++ [u] }, none) := by
  simp [visitState, hr, extract_page_details, hf]

/-- When rendering and detail extraction both succeed, the step appends the
page record, marks the URL visited, and hands back the extracted links. -/
theorem visitState_eq_ok (render : String → Option Document) (u : String) (s : St)
    (doc : Document) (hr : render u = some doc) (hf : doc.detailsFail = false) :
    visitState render u s =
      ({ scraped := s.scraped ++ [{ title := doc.title, url := doc.url, page_content := doc.content }],
         visited := u :: s.visited,
         renders := s.renders ++ [u] }, some (extract_image_links doc)) := by
  simp [visitState, hr, extract_page_details, hf]

/-- Master preservation lemma: any state predicate preserved by a single
`visitState` step on a not-yet-visited URL is preserved by the whole
traversal. -/
theorem scrapeList_preserves (render : String → Option Document) (max_depth : Int)
    (P : St → Prop)
    (hstep : ∀ u s, P s → u ∉ s.visited → P (visitState render u s).1) :
    ∀ (urls : List String) (d : Nat) (s : St), P s → P (scrapeList render max_depth urls d s) := by
  intro urls d s
  induction urls, d, s using scrapeList.induct render max_depth with
  | case1 d s => intro hp; rwa [scrapeList_nil]
  | case2 u rest d s s1 ihChild ihRest =>
    intro hp
    rw [scrapeList]
    refine ihRest ?_
    show P (if h : (d : Int) > max_depth ∨ u ∈ s.visited then s
      else
        match visitState render u s with
        | (s2, none) => s2
        | (s2, some links) => scrapeList render max_depth links (d + 1) s2)
    by_cases hg : (d : Int) > max_depth ∨ u ∈ s.visited
    · rw [dif_pos hg]; exact hp
    · rw [dif_neg hg]
      rcases hv : visitState render u s with ⟨s2, lnks⟩
      have hps2 : P s2 := by
        have h2 := hstep u s hp (fun hm => hg (Or.inr hm))
        rwa [hv] at h2
      cases lnks with
      | none => simpa only [hv] using hps2
      | some links => simp only [hv]; exact ihChild hg s2 links hps2

/-- The `enumerate` loop splits over list concatenation. -/
theorem writeBlocks_append (i : Nat) (l1 l2 : List PageRecord) :
    writeBlocks i (l1 ++ l2) = writeBlocks i l1 ++ writeBlocks (i + l1.length) l2 := by
  induction l1 generalizing i with
  | nil => simp [writeBlocks, String.empty_append]
  | cons p rest ih =>
    have hn : (i + 1) + rest.length = i + (rest.length + 1) := by omega
    simp only [List.cons_append, writeBlocks, List.append_eq, ih, hn, List.length_cons,
      String.append_assoc]

end WebScraper

namespace WebScraper

/-- The renders trace grows by exactly the processed URL in one step. -/
theorem visitState_renders (render : String → Option Document) (u : String) (s : St) :
    (visitState render u s).1.renders = s.renders ++ [u] := by
  rcases hr : render u with _ | doc
  · rw [visitState_eq_fail render u s hr]
  · cases hfb : doc.detailsFail
    · rw [visitState_eq_ok render u s doc hr hfb]
    · rw [visitState_eq_detailsFail render u s doc hr hfb]

/-- Claim C1 counterexample: with seed A whose candidate list mentions B twice
and with the detail extraction of B failing, B is passed to the renderer twice in
one run — the code inserts into the visited set only after a fully successful
render-and-extract, so a failing location is rendered more than once. -/
theorem c1_counterexample :
    (navigate_and_extract render1 ("http://a") 2).renders =
        [("http://a"), ("http://b"), ("http://b")] ∧
      ((navigate_and_extract render1 ("http://a") 2).renders.count ("http://b")) = 2 := by
  have hA : extract_image_links docA1 = [("http://b"), ("http://b")] := by decide
  have hdA : extract_page_details docA1 =
      Except.ok { title := ("A"), url := ("http://a"), page_content := ("ca") } := by rfl
  have hdB : extract_page_details docB1 = Except.error () := by rfl
  have hr : (navigate_and_extract render1 ("http://a") 2).renders =
      [("http://a"), ("http://b"), ("http://b")] := by
    simp [navigate_and_extract, recursive_scrape, scrapeList, visitState, render1, hA, hdA, hdB]
  exact ⟨hr, by rw [hr]; decide⟩

/-- Claim C1 (amended): the visited-set insertion happens after a successful
render and detail extraction, but still before recursing into children; hence
every location whose render and extraction succeed is passed to the renderer
at most once per run, and once rendered it is in the visited set — while a
location whose render or extraction fails may be rendered again. -/
theorem c1_amended (render : String → Option Document) (url : String) (max_depth : Int)
    (L : String) (doc : Document) (hL : render L = some doc) (hf : doc.detailsFail = false) :
    ((navigate_and_extract render url max_depth).renders.count L ≤ 1) ∧
      (1 ≤ (navigate_and_extract render url max_depth).renders.count L →
        L ∈ (navigate_and_extract render url max_depth).visited) := by
  have hmain := scrapeList_preserves render max_depth
    (fun s => s.renders.count L ≤ 1 ∧ (1 ≤ s.renders.count L → L ∈ s.visited))
    ?_ [url] 0 { scraped := [], visited := [], renders := [] } (by simp)
  · exact hmain
  · intro u s hp hu
    rcases hp with ⟨hc, hv⟩
    have hcnt : ∀ t : St, t.renders = s.renders ++ [u] → L ≠ u →
        (t.renders.count L ≤ 1 ∧ (1 ≤ t.renders.count L → L ∈ s.visited)) := by
      intro t ht hne
      rw [ht, List.count_append]
      have h0 : List.count L [u] = 0 := by
        simp [List.count_cons, hne]
      rw [h0]
      exact ⟨by omega, fun h1 => hv (by omega)⟩
    rcases hr : render u with _ | d2
    · have hne : L ≠ u := by
        rintro rfl
        rw [hL] at hr
        cases hr
      rw [visitState_eq_fail render u s hr]
      exact hcnt _ rfl hne
    · cases hfb : d2.detailsFail
      · -- success branch
        rw [visitState_eq_ok render u s d2 hr hfb]
        by_cases he : L = u
        · subst he
          have hc0 : s.renders.count L = 0 := by
            by_contra hne0
            exact hu (hv (by omega))
          constructor
          · simp [List.count_append, hc0, List.count_cons]
          · intro _
            exact List.mem_cons_self L s.visited
        · obtain ⟨h1, h2⟩ := hcnt { s with renders := s.renders ++ [u] } rfl he
          exact ⟨h1, fun hh => List.mem_cons_of_mem _ (h2 hh)⟩
      · -- details extraction fails: L cannot be u since the document of L succeeds
        have hne : L ≠ u := by
          rintro rfl
          rw [hL] at hr
          cases hr
          rw [hf] at hfb
          cases hfb
        rw [visitState_eq_detailsFail render u s d2 hr hfb]
        exact hcnt _ rfl hne

/-- Claim C1 witness. -/
theorem c1_witness :
    ((navigate_and_extract render1 ("http://a") 2).renders.count ("http://a") ≤ 1) ∧
      (1 ≤ (navigate_and_extract render1 ("http://a") 2).renders.count ("http://a") →
        ("http://a") ∈ (navigate_and_extract render1 ("http://a") 2).visited) :=
  c1_amended render1 ("http://a") 2 ("http://a") docA1 rfl rfl

end WebScraper

namespace WebScraper

/-- Claim C2 counterexample: the `url` field of a record is the driver
`current_url` value, not the requested URL; with two distinct requested pages both
reporting final location `http://x`, the final result list contains two
records whose location field equals `http://x`. -/
theorem c2_counterexample :
    List.countP (fun r => r.url == ("http://x"))
      (navigate_and_extract render2 ("http://a") 2).scraped = 2 := by
  have hA : extract_image_links docA2 = [("http://b")] := by decide
  have hB : extract_image_links docB2 = [] := by decide
  have hdA : extract_page_details docA2 = Except.ok { title := ("A"), url := ("http://x"), page_content := ("ca") } := by rfl
  have hdB : extract_page_details docB2 = Except.ok { title := ("B"), url := ("http://x"), page_content := ("cb") } := by rfl
  have hs : (navigate_and_extract render2 ("http://a") 2).scraped =
      [{ title := ("A"), url := ("http://x"), page_content := ("ca") },
       { title := ("B"), url := ("http://x"), page_content := ("cb") }] := by
    simp [navigate_and_extract, recursive_scrape, scrapeList, visitState, render2,
      hA, hB, hdA, hdB]
  rw [hs]
  decide

/-- Claim C2 (amended): each location appears at most once in the visited set,
and provided the renderer reports the location of each document as the requested
location, at most one record with a given location field exists; the
two-cycle A → B → A yields exactly one record for each of A and B. -/
theorem c2_amended :
    (∀ (render : String → Option Document) (url : String) (max_depth : Int),
        (∀ l doc, render l = some doc → doc.url = l) →
        ∀ L, List.countP (fun r => r.url == L)
            (navigate_and_extract render url max_depth).scraped ≤ 1) ∧
      (navigate_and_extract renderCyc ("http://a") 2).scraped =
        [{ title := ("A"), url := ("http://a"), page_content := ("ca") },
         { title := ("B"), url := ("http://b"), page_content := ("cb") }] := by
  constructor
  · intro render url max_depth hfaith L
    have hmain := scrapeList_preserves render max_depth
      (fun s => List.countP (fun r => r.url == L) s.scraped ≤ 1 ∧
        (1 ≤ List.countP (fun r => r.url == L) s.scraped → L ∈ s.visited))
      ?_ [url] 0 { scraped := [], visited := [], renders := [] } (by simp)
    · exact hmain.1
    · intro u s hp hu
      rcases hp with ⟨hc, hv⟩
      rcases hr : render u with _ | d2
      · rw [visitState_eq_fail render u s hr]
        exact ⟨hc, hv⟩
      · cases hfb : d2.detailsFail
        · -- success: the url of the new record is the requested URL
          rw [visitState_eq_ok render u s d2 hr hfb]
          have hurl : d2.url = u := hfaith u d2 hr
          by_cases he : L = u
          · subst he
            have hc0 : List.countP (fun r => r.url == L) s.scraped = 0 := by
              by_contra hne0
              exact hu (hv (by omega))
            constructor
            · simp [List.countP_append, hc0, List.countP_cons, hurl]
            · intro _
              exact List.mem_cons_self L s.visited
          · have hne2 : (d2.url == L) = false := by
              rw [hurl]
              exact beq_eq_false_iff_ne.mpr (fun hh => he hh.symm)
            constructor
            · simpa [List.countP_append, List.countP_cons, hne2] using hc
            · intro hh
              refine List.mem_cons_of_mem _ (hv ?_)
              simpa [List.countP_append, List.countP_cons, hne2] using hh
        · rw [visitState_eq_detailsFail render u s d2 hr hfb]
          exact ⟨hc, hv⟩
  · have hA : extract_image_links docACyc = [("http://b")] := by decide
    have hB : extract_image_links docBCyc = [("http://a")] := by decide
    have hdA : extract_page_details docACyc = Except.ok { title := ("A"), url := ("http://a"), page_content := ("ca") } := by rfl
    have hdB : extract_page_details docBCyc = Except.ok { title := ("B"), url := ("http://b"), page_content := ("cb") } := by rfl
    simp [navigate_and_extract, recursive_scrape, scrapeList, visitState, renderCyc,
      hA, hB, hdA, hdB]

/-- Claim C2 witness. -/
theorem c2_witness :
    List.countP (fun r => r.url == ("http://a"))
      (navigate_and_extract renderCyc ("http://a") 2).scraped ≤ 1 := by
  refine c2_amended.1 renderCyc ("http://a") 2 ?_ ("http://a")
  intro l doc h
  by_cases h1 : l = ("http://a")
  · subst h1
    simp [renderCyc] at h
    rw [← h]
    rfl
  · by_cases h2 : l = ("http://b")
    · subst h2
      simp [renderCyc, h1] at h  -- hmm: renderCyc "http://b": first if is decided by evaluation
      rw [← h]
      rfl
    · simp [renderCyc, h1, h2] at h

end WebScraper

namespace WebScraper

/-- Claim C3 counterexample: with the malformed (empty) seed the code performs
no validation and raises no error — the renderer is invoked on the empty
string (so the run does not abort before rendering), the per-node handler
swallows the failure, and the call returns an empty result list normally. -/
theorem c3_counterexample :
    (navigate_and_extract (fun _ => none) ("") 2).renders = [("")] ∧
      (navigate_and_extract (fun _ => none) ("") 2).scraped = [] := by
  have h : navigate_and_extract (fun _ => none) ("") 2 =
      { scraped := [], visited := [], renders := [("")] } := by
    simp [navigate_and_extract, recursive_scrape, scrapeList, visitState]
  rw [h]
  exact ⟨rfl, rfl⟩

/-- Claim C3 (amended): `navigate_and_extract` validates nothing: with a
non-negative `max_depth` the empty seed is passed to the renderer (the first
entry of the render trace is the empty string), and any failure is handled
per-node so the call returns normally; with a negative `max_depth` it
returns the empty result without rendering.  No `InvalidArgument` error
exists anywhere in the code. -/
theorem c3_amended (render : String → Option Document) (max_depth : Int) :
    (max_depth < 0 → navigate_and_extract render ("") max_depth =
      { scraped := [], visited := [], renders := [] }) ∧
    (0 ≤ max_depth → ∃ t, (navigate_and_extract render ("") max_depth).renders = ("") :: t) := by
  constructor
  · intro hneg
    unfold navigate_and_extract recursive_scrape
    rw [scrapeList, dif_pos (Or.inl (by omega : ((0:Nat) : Int) > max_depth))]
    exact scrapeList_nil render max_depth 0 _
  · intro hpos
    unfold navigate_and_extract recursive_scrape
    rw [scrapeList, scrapeList_nil]
    have hg : ¬(((0:Nat) : Int) > max_depth ∨ ("") ∈ ([] : List String)) := by
      simp
      omega
    rw [dif_neg hg]
    rcases hv : visitState render ("") { scraped := [], visited := [], renders := [] }
      with ⟨s2, lnks⟩
    have h2 : ∃ t, s2.renders = ("") :: t := by
      have hrend := visitState_renders render ("") { scraped := [], visited := [], renders := [] }
      rw [hv] at hrend
      exact ⟨[], hrend⟩
    cases lnks with
    | none =>
      simp only [hv]
      exact h2
    | some links =>
      simp only [hv]
      refine scrapeList_preserves render max_depth
        (fun s => ∃ t, s.renders = ("") :: t) ?_ links 1 s2 h2
      intro u s hp _
      obtain ⟨t, ht⟩ := hp
      rw [visitState_renders render u s, ht]
      exact ⟨t ++ [u], rfl⟩

/-- Claim C3 witness. -/
theorem c3_witness :
    navigate_and_extract (fun _ => none) ("") (-1) =
      { scraped := [], visited := [], renders := [] } :=
  (c3_amended (fun _ => none) (-1)).1 (by norm_num)

/-- Claim C4 counterexample: one element whose read raises does not merely
lose its own contribution — the whole candidate list is discarded.  The same
document without the failing element yields both remaining candidates. -/
theorem c4_counterexample :
    extract_image_links docBroken = [] ∧
      extract_image_links docAllOk = [("http://ok1"), ("http://ok2")] := by
  decide

/-- Claim C4 (amended): an exception while reading any single element aborts
the entire comprehension, and the surrounding `try/except` then returns an
empty candidate list, dropping the readable contributions of the readable elements as well;
no `ExtractionFailed` condition propagates to the caller — total failures
(`find_elements` raising) also just return the empty list. -/
theorem c4_amended (doc : Document) (pre post : List ImgElement) (img : ImgElement)
    (himgs : doc.imgs = pre ++ img :: post) (hbad : imgLink img = Except.error ()) :
    extract_image_links doc = [] := by
  have hcol : ∀ l1 : List ImgElement, collectLinks (l1 ++ img :: post) = Except.error () := by
    intro l1
    induction l1 with
    | nil => simp [collectLinks, hbad]
    | cons e rest ih =>
      cases he : imgLink e with
      | error e2 => simp [collectLinks, he]
      | ok link => simp [collectLinks, he, ih]
  by_cases hfi : doc.findImgsFails = true
  · simp [extract_image_links, hfi]
  · simp only [Bool.not_eq_true] at hfi
    simp [extract_image_links, hfi, himgs, hcol pre]

/-- Claim C4 witness. -/
theorem c4_witness : extract_image_links docBroken = [] :=
  c4_amended docBroken [mkImg ("http://ok1")] [mkImg ("http://ok2")] imgBad rfl rfl

end WebScraper

namespace WebScraper

/-- Claim C5: once the current depth exceeds `max_depth` the traversal expands
no node (it is a strict no-op); with `max_depth = 0` and a successful seed
render and extraction, the result is exactly the record of the seed; and in the
concrete scenario S → {C1, C2}, C1 → D with `max_depth = 1` the result is the
seed plus its two direct candidates, and the depth-2 page D is never
rendered. -/
theorem c5_depth_bound :
    (∀ (render : String → Option Document) (max_depth : Int) (urls : List String)
        (d : Nat) (s : St), (d : Int) > max_depth →
        scrapeList render max_depth urls d s = s) ∧
    (∀ (render : String → Option Document) (url : String) (doc : Document),
        render url = some doc → doc.detailsFail = false →
        (navigate_and_extract render url 0).scraped =
          [{ title := doc.title, url := doc.url, page_content := doc.content }]) ∧
    ((navigate_and_extract render5 ("http://s") 1).scraped =
        [{ title := ("S"), url := ("http://s"), page_content := ("cs") },
         { title := ("C1"), url := ("http://c1"), page_content := ("cc1") },
         { title := ("C2"), url := ("http://c2"), page_content := ("cc2") }] ∧
      ("http://d") ∉ (navigate_and_extract render5 ("http://s") 1).renders) := by
  refine ⟨scrapeList_depth_exceeded, ?_, ?_⟩
  · intro render url doc hr hf
    unfold navigate_and_extract recursive_scrape
    rw [scrapeList, scrapeList_nil]
    have hg : ¬(((0:Nat) : Int) > 0 ∨ url ∈ ([] : List String)) := by simp
    rw [dif_neg hg]
    simp only [visitState_eq_ok render url _ doc hr hf]
    rw [scrapeList_depth_exceeded render 0 _ 1 _ (by norm_num)]
    simp
  · have hS : extract_image_links docS5 = [("http://c1"), ("http://c2")] := by decide
    have hCa : extract_image_links docC5a = [("http://d")] := by decide
    have hCb : extract_image_links docC5b = [] := by decide
    have hdS : extract_page_details docS5 = Except.ok { title := ("S"), url := ("http://s"), page_content := ("cs") } := by rfl
    have hdCa : extract_page_details docC5a = Except.ok { title := ("C1"), url := ("http://c1"), page_content := ("cc1") } := by rfl
    have hdCb : extract_page_details docC5b = Except.ok { title := ("C2"), url := ("http://c2"), page_content := ("cc2") } := by rfl
    have hst : navigate_and_extract render5 ("http://s") 1 =
        { scraped := [{ title := ("S"), url := ("http://s"), page_content := ("cs") },
            { title := ("C1"), url := ("http://c1"), page_content := ("cc1") },
            { title := ("C2"), url := ("http://c2"), page_content := ("cc2") }],
          visited := [("http://c2"), ("http://c1"), ("http://s")],
          renders := [("http://s"), ("http://c1"), ("http://c2")] } := by
      simp [navigate_and_extract, recursive_scrape, scrapeList, visitState, render5,
        hS, hCa, hCb, hdS, hdCa, hdCb]
    rw [hst]
    exact ⟨rfl, by decide⟩

/-- Claim C5 witness. -/
theorem c5_witness :
    scrapeList (fun _ => none) 1 [("x")] 2 { scraped := [], visited := [], renders := [] } =
        { scraped := [], visited := [], renders := [] } ∧
      (navigate_and_extract render5 ("http://s") 0).scraped =
        [{ title := ("S"), url := ("http://s"), page_content := ("cs") }] :=
  ⟨c5_depth_bound.1 (fun _ => none) 1 [("x")] 2 _ (by norm_num),
   c5_depth_bound.2.1 render5 ("http://s") docS5 rfl rfl⟩

/-- Claim C6: in every run whose renderer sends seed A to a document linking
B and C, fails to render B, and sends C to a successful leaf document, the
result contains records for A and C but not B: the failing sibling yields no
record and no children, no exception escapes, and the rest of the run
continues. -/
theorem c6_sibling_failure (render : String → Option Document)
    (hA : render ("http://a") = some docA6) (hB : render ("http://b") = none)
    (hC : render ("http://c") = some docC6) :
    (navigate_and_extract render ("http://a") 2).scraped =
      [{ title := ("A"), url := ("http://a"), page_content := ("contentA") },
       { title := ("C"), url := ("http://c"), page_content := ("contentC") }] := by
  have hLA : extract_image_links docA6 = [("http://b"), ("http://c")] := by decide
  have hLC : extract_image_links docC6 = [] := by decide
  have hdA : extract_page_details docA6 = Except.ok { title := ("A"), url := ("http://a"), page_content := ("contentA") } := by rfl
  have hdC : extract_page_details docC6 = Except.ok { title := ("C"), url := ("http://c"), page_content := ("contentC") } := by rfl
  simp [navigate_and_extract, recursive_scrape, scrapeList, visitState,
    hA, hB, hC, hLA, hLC, hdA, hdC]

/-- Claim C6 witness. -/
theorem c6_witness :
    (navigate_and_extract render6 ("http://a") 2).scraped =
      [{ title := ("A"), url := ("http://a"), page_content := ("contentA") },
       { title := ("C"), url := ("http://c"), page_content := ("contentC") }] :=
  c6_sibling_failure render6 rfl rfl rfl

/-- Claim C7 counterexample: the filter is the literal test
startswith applied with the literal characters http, so the scheme-less reference `httpfoo` — not an
absolute, fully-qualified reference — is nevertheless included in the
candidate list. -/
theorem c7_counterexample :
    extract_image_links docSchemeless = [("httpfoo")] ∧
      specAbsoluteRef ("httpfoo") = false := by
  decide

/-- Claim C7 (amended): a candidate is included only if it is non-empty and
begins with the literal characters `http` — relative references such as `/x`
and `images/y.png` are silently discarded, as the mixed-document test shows,
but inclusion does not guarantee a well-formed absolute reference with a
recognized scheme. -/
theorem c7_http_filter :
    (∀ (doc : Document) (l : String), l ∈ extract_image_links doc →
        l ≠ "" ∧ startswith l ("http") = true) ∧
      extract_image_links docMix = [("https://example.com/x")] := by
  constructor
  · intro doc l hl
    unfold extract_image_links at hl
    by_cases hf : doc.findImgsFails = true
    · simp [hf] at hl
    · simp only [Bool.not_eq_true] at hf
      rw [if_neg (by simp [hf])] at hl
      cases hcl : collectLinks doc.imgs with
      | error e => rw [hcl] at hl; cases hl
      | ok links =>
        rw [hcl] at hl
        rw [List.mem_filterMap] at hl
        obtain ⟨a, _, hk⟩ := hl
        cases a with
        | none => simp [keepLink] at hk
        | some s =>
          simp only [keepLink] at hk
          by_cases hcond : (truthy (some s) && startswith s ("http")) = true
          · rw [if_pos hcond] at hk
            cases hk
            rw [Bool.and_eq_true] at hcond
            rcases hcond with ⟨ht, hs⟩
            refine ⟨?_, hs⟩
            intro hempty
            subst hempty
            simp [truthy] at ht
          · rw [if_neg hcond] at hk
            cases hk
  · decide

/-- Claim C7 witness. -/
theorem c7_witness :
    ("https://example.com/x") ≠ "" ∧
      startswith ("https://example.com/x") ("http") = true :=
  c7_http_filter.1 docMix ("https://example.com/x") (by decide)

end WebScraper

namespace WebScraper

set_option maxRecDepth 40000 in
/-- Claim C8: the Reporter writes one 1-based numbered block per record in
exactly the input order — appending a record appends exactly its block, with
index one past the previous length — and the Content line holds the first
1000 characters of the record content followed by the literal suffix
`...`; for a 1500-character content exactly the first 1000 characters plus
`...` are written. -/
theorem c8_report_order_truncation :
    (∀ (recs : List PageRecord) (r : PageRecord),
        save_scraped_data (recs ++ [r]) =
          save_scraped_data recs ++ pageBlock (recs.length + 1) r) ∧
      save_scraped_data [recLong] =
        ("Page 1:\nTitle: T\nURL: U\nContent: ") ++ String.mk (List.replicate 1000 'a')
          ++ ("...\n\n") := by
  constructor
  · intro recs r
    unfold save_scraped_data
    rw [writeBlocks_append]
    simp [writeBlocks, String.append_empty, Nat.add_comm]
  · rfl

/-- Claim C9: the traversal and reporting logic is a deterministic function
of the renderer behaviour: two runs against renderers with identical
location-to-document mappings produce byte-identical report output. -/
theorem c9_deterministic (r1 r2 : String → Option Document) (url : String)
    (max_depth : Int) (h : ∀ l, r1 l = r2 l) :
    save_scraped_data (navigate_and_extract r1 url max_depth).scraped =
      save_scraped_data (navigate_and_extract r2 url max_depth).scraped := by
  have he : r1 = r2 := funext h
  rw [he]

/-- Claim C9 witness. -/
theorem c9_witness :
    save_scraped_data (navigate_and_extract (fun _ => none) ("u") 2).scraped =
      save_scraped_data (navigate_and_extract (fun _ => none) ("u") 2).scraped :=
  c9_deterministic (fun _ => none) (fun _ => none) ("u") 2 (fun _ => rfl)

/-- Claim C10: `navigate_and_extract` never propagates a renderer or
extractor exception: the model of every failure is handled inside the
per-node frame, and when rendering (or detail extraction) of the seed itself
fails the call returns the empty result list rather than raising. -/
theorem c10_seed_failure_empty (render : String → Option Document) (url : String)
    (max_depth : Int)
    (h : render url = none ∨ ∃ doc, render url = some doc ∧ doc.detailsFail = true) :
    (navigate_and_extract render url max_depth).scraped = [] := by
  unfold navigate_and_extract recursive_scrape
  rw [scrapeList, scrapeList_nil]
  split
  · rfl
  · rcases h with hn | ⟨doc, hd, hf⟩
    · simp only [visitState_eq_fail render url _ hn]
    · simp only [visitState_eq_detailsFail render url _ doc hd hf]

/-- Claim C10 witness. -/
theorem c10_witness :
    (navigate_and_extract (fun _ => none) ("u") 2).scraped = [] :=
  c10_seed_failure_empty (fun _ => none) ("u") 2 (Or.inl rfl)

end WebScraper
